import Mathlib

/-
Verification of the nRF51-ble-bcast-mesh rebroadcast framework against its
specification.  The repository ships only the public headers
(rbc_mesh/rbc_mesh.h, rbc_mesh/include/rbc_mesh_common.h); the engine itself
(value store, conflict resolver, trickle scheduler, synchronization
controller) is not part of the provided sources, so those components are
modelled from the specification text, while the header is the authority for
the return-code contracts of the public API.
-/

namespace RbcMesh

/-- Outcome of the conflict resolver, from spec section 4.2. -/
inductive Decision
  | accept
  | reject
  | conflict
deriving DecidableEq, Repr

/-- Modelled from the spec: the pure conflict-resolution function of
section 4.2 (its implementation, part of the engine, is not in the provided
sources).  Compares a local observation (version, origin) of a handle with a
remote one and decides Accept, Reject or Conflict. -/
def resolve (localVersion localOrigin remoteVersion remoteOrigin : Nat) : Decision :=
  if localVersion < remoteVersion then .accept
  else if remoteVersion < localVersion then .reject
  else if remoteOrigin = localOrigin then .reject
  else .conflict

/-- C1: the conflict resolver is a total function whose outcome is exactly
Accept when the remote version is strictly newer, Reject when it is strictly
older or an equal-version duplicate from the same origin, and Conflict when
the versions are equal but the origins differ. -/
theorem resolve_outcome_characterization
    (lv lo rv ro : Nat) :
    (resolve lv lo rv ro = .accept ↔ lv < rv) ∧
    (resolve lv lo rv ro = .reject ↔ (rv < lv ∨ (rv = lv ∧ ro = lo))) ∧
    (resolve lv lo rv ro = .conflict ↔ (rv = lv ∧ ro ≠ lo)) := by
  unfold resolve
  split_ifs with h1 h2 h3 <;>
    refine ⟨?_, ?_, ?_⟩ <;>
    constructor <;>
    intro hx <;>
    first
      | omega
      | simp_all

/-- Modelled from the spec: one ValueSlot of the Value Store (spec section 3),
holding the payload bytes, the version counter, the origin identifier of the
node that produced the current version, and the allocated flag. -/
structure ValueSlot where
  payload : List Nat
  version : Nat
  origin : Nat
  allocated : Bool
deriving DecidableEq, Repr

/-- Modelled from the spec: Value Store operation set_local (spec section 4.1)
restricted to one slot: increments the version, sets the origin to the local
node identity, installs the payload and marks the slot allocated. -/
def setLocal (s : ValueSlot) (localOrigin : Nat) (p : List Nat) : ValueSlot :=
  { payload := p, version := s.version + 1, origin := localOrigin, allocated := true }

/-- Modelled from the spec: Value Store operation merge (spec section 4.1)
restricted to one slot.  The accept/reject/conflict decision is delegated to
the Conflict Resolver; on Accept the remote payload, version and origin are
installed; on Conflict the tie is broken by the fixed total order on origin
identifiers (spec section 4.2; the direction of the comparison is left open
by the spec, the higher origin is taken as the winner here) and the winner
payload becomes the local value; on Reject the slot is untouched.  Returns
the possibly-updated slot together with the decision. -/
def mergeSlot (s : ValueSlot) (rv ro : Nat) (rp : List Nat) : ValueSlot × Decision :=
  match resolve s.version s.origin rv ro with
  | .accept => ({ payload := rp, version := rv, origin := ro, allocated := true }, .accept)
  | .reject => (s, .reject)
  | .conflict =>
      if s.origin < ro then
        ({ payload := rp, version := rv, origin := ro, allocated := true }, .conflict)
      else (s, .conflict)

/-- Application event types, from rbc_mesh_event_type_t in rbc_mesh.h. -/
inductive EventType
  | updateVal
  | conflictingVal
  | newVal
deriving DecidableEq, Repr

/-- Modelled from the spec: the Synchronization Controller inbound path
on_packet_received (spec section 4.4) for one handle, after the handle-range
validation.  Merges via the store, emits NEW_VAL when the slot was
previously unallocated, otherwise UPDATE_VAL on Accept and CONFLICTING_VAL
on Conflict, and no event on Reject; the boolean is the
inconsistency signal handed to the Scheduler (true on Accept or Conflict,
false on Reject). -/
def onPacketReceived (s : ValueSlot) (rv ro : Nat) (rp : List Nat) :
    ValueSlot × Option EventType × Bool :=
  match mergeSlot s rv ro rp with
  | (s1, .accept) => (s1, some (if s.allocated then .updateVal else .newVal), true)
  | (s1, .conflict) => (s1, some (if s.allocated then .conflictingVal else .newVal), true)
  | (s1, .reject) => (s1, none, false)

/-- Repeated redelivery of the same inbound packet, n times in a row. -/
def redeliverN (rv ro : Nat) (rp : List Nat) : Nat → ValueSlot → ValueSlot
  | 0, s => s
  | n + 1, s => redeliverN rv ro rp n (onPacketReceived s rv ro rp).1

/-- One operation applied to a slot: a local set or a merge of a remote
observation. -/
inductive SlotOp
  | opSetLocal (localOrigin : Nat) (p : List Nat)
  | opMerge (rv ro : Nat) (rp : List Nat)
deriving DecidableEq, Repr

/-- Apply one slot operation. -/
def applyOp (s : ValueSlot) : SlotOp → ValueSlot
  | .opSetLocal lo p => setLocal s lo p
  | .opMerge rv ro rp => (mergeSlot s rv ro rp).1

/-- Apply a sequence of slot operations, left to right. -/
def applyOps (s : ValueSlot) (ops : List SlotOp) : ValueSlot :=
  ops.foldl applyOp s

/-- A single Accept only installs a strictly larger version, and Reject and
Conflict keep the version, so every operation keeps the version at least as
large as before. -/
theorem applyOp_version_mono (s : ValueSlot) (op : SlotOp) :
    s.version ≤ (applyOp s op).version := by
  cases op with
  | opSetLocal lo p => simp [applyOp, setLocal]
  | opMerge rv ro rp =>
      simp only [applyOp, mergeSlot, resolve]
      split_ifs with h1 h2 h3 <;> simp <;> omega

/-- C3: for every handle and every sequence of set_local and merge
operations, the stored version never decreases: it is monotone across each
single operation and hence across any sequence of operations. -/
theorem version_monotone :
    (∀ (s : ValueSlot) (op : SlotOp), s.version ≤ (applyOp s op).version) ∧
    (∀ (ops : List SlotOp) (s : ValueSlot), s.version ≤ (applyOps s ops).version) := by
  refine ⟨applyOp_version_mono, fun ops => ?_⟩
  induction ops with
  | nil => intro s; simp [applyOps]
  | cons op rest ih =>
      intro s
      calc s.version ≤ (applyOp s op).version := applyOp_version_mono s op
        _ ≤ (applyOps (applyOp s op) rest).version := ih (applyOp s op)
        _ = (applyOps s (op :: rest)).version := by simp [applyOps, List.foldl]

/-- C2: two nodes that both start from version V and each perform one local
set with distinct payloads and distinct origins converge, once each has
merged the packet of the other, to the identical payload, version V+1 and
origin, the winner being fixed by the total order on origins. -/
theorem conflict_convergence
    (V oa ob : Nat) (pa pb : List Nat) (sA sB : ValueSlot)
    (hva : sA.version = V) (hvb : sB.version = V)
    (ho : oa ≠ ob) (hp : pa ≠ pb) :
    (mergeSlot (setLocal sA oa pa) (V + 1) ob pb).1 =
      (mergeSlot (setLocal sB ob pb) (V + 1) oa pa).1 ∧
    (mergeSlot (setLocal sA oa pa) (V + 1) ob pb).1 =
      (if oa < ob then ValueSlot.mk pb (V + 1) ob true
       else ValueSlot.mk pa (V + 1) oa true) := by
  have hoa : oa < ob ∨ ob < oa := Nat.lt_or_lt_of_ne ho
  simp only [mergeSlot, resolve, setLocal, hva, hvb]
  rcases hoa with h | h <;>
    (split_ifs <;> simp_all <;> omega)

/-- C4: redelivering an already-merged tuple takes the Reject branch, leaves
the slot unchanged, emits no event and signals consistency; hence any number
of redeliveries leaves the slot unchanged and every redelivery emits no
event. -/
theorem redelivery_idempotent (s : ValueSlot) :
    (mergeSlot s s.version s.origin s.payload).2 = .reject ∧
    onPacketReceived s s.version s.origin s.payload = (s, none, false) ∧
    (∀ n : Nat, redeliverN s.version s.origin s.payload n s = s) := by
  have hm : mergeSlot s s.version s.origin s.payload = (s, .reject) := by
    simp [mergeSlot, resolve]
  have hp : onPacketReceived s s.version s.origin s.payload = (s, none, false) := by
    simp [onPacketReceived, hm]
  refine ⟨by simp [hm], hp, fun n => ?_⟩
  induction n with
  | zero => rfl
  | succ k ih => simp [redeliverN, hp, ih]

/-- Witness for conflict_convergence: nodes with origins 1 and 2, both at
version 0, set distinct payloads; both converge to the slot of origin 2. -/
theorem conflict_convergence_witness :
    (mergeSlot (setLocal (ValueSlot.mk [] 0 0 false) 1 [10]) 1 2 [20]).1 =
      (mergeSlot (setLocal (ValueSlot.mk [] 0 0 false) 2 [20]) 1 1 [10]).1 ∧
    (mergeSlot (setLocal (ValueSlot.mk [] 0 0 false) 1 [10]) 1 2 [20]).1 =
      (if 1 < 2 then ValueSlot.mk [20] 1 2 true else ValueSlot.mk [10] 1 1 true) :=
  conflict_convergence 0 1 2 [10] [20]
    (ValueSlot.mk [] 0 0 false) (ValueSlot.mk [] 0 0 false)
    rfl rfl (by decide) (by decide)

/-- Error kinds of the public API (spec section 7), with the softdevice
failure mode documented in rbc_mesh.h. -/
inductive MeshError
  | invalidParam
  | notInitialized
  | alreadyInitialized
  | invalidAddress
  | invalidLength
  | unallocated
  | softdeviceNotEnabled
deriving DecidableEq, Repr

/-- Maximum payload length RBC_VALUE_MAX_LEN.  Modelled from the spec: the
constant is referenced by rbc_mesh.h but its numeric value is not in the
provided sources; the concrete value chosen here is irrelevant to the
claims. -/
def RBC_VALUE_MAX_LEN : Nat := 28

/-- Trickle scheduler phase per handle (spec section 4.3). -/
inductive TricklePhase
  | idle
  | listening
  | transmitDue
  | suppressed
  | sent
deriving DecidableEq, Repr

/-- Modelled from the spec: per-handle Trickle timer state (spec section 3):
interval bounds and the current suppression interval. -/
structure Trickle where
  imin : Nat
  imax : Nat
  cur : Nat
deriving DecidableEq, Repr

/-- Modelled from the spec: the interval bounds are derived once at
initialization from the mesh-wide adv_int_ms; the exact derivation and the
number of doublings are not in the provided sources, so the minimum is taken
to be adv_int_ms and the maximum a fixed multiple of it. -/
def trickleFromAdv (advIntMs : Nat) : Trickle :=
  { imin := advIntMs, imax := advIntMs * 256, cur := advIntMs }

/-- Modelled from the spec: global framework state: the initialization flag,
the configuration recorded at init, the local node identity used as origin,
and the per-handle value slots, timers and scheduler phases. -/
structure MeshState where
  initDone : Bool
  sdEnabled : Bool
  accessAddr : Nat
  channel : Nat
  handleCount : Nat
  advIntMs : Nat
  nodeAddr : Nat
  slots : Nat → ValueSlot
  timers : Nat → Trickle
  phases : Nat → TricklePhase

/-- A fresh, never-set slot. -/
def emptySlot : ValueSlot := ValueSlot.mk [] 0 0 false

/-- State of a node before any call to init. -/
def preInitState (sd : Bool) (nodeAddr : Nat) : MeshState :=
  { initDone := false, sdEnabled := sd, accessAddr := 0, channel := 0,
    handleCount := 0, advIntMs := 0, nodeAddr := nodeAddr,
    slots := fun _ => emptySlot, timers := fun _ => trickleFromAdv 0,
    phases := fun _ => .idle }

/-- Parameter validity for init: channel between 1 and 39, handle_count at
most 155, adv_int_ms in [5, 60000] (rbc_mesh.h parameter documentation). -/
def initParamsValid (channel handleCount advIntMs : Nat) : Bool :=
  decide (1 ≤ channel) && decide (channel ≤ 39) &&
  decide (handleCount ≤ 155) &&
  decide (5 ≤ advIntMs) && decide (advIntMs ≤ 60000)

/-- Modelled from the spec: rbc_mesh_init (declared in rbc_mesh.h, body not
in the provided sources).  Per the header note, a call made before the
Softdevice is enabled returns NRF_ERROR_SOFTDEVICE_NOT_ENABLED; otherwise an
out-of-range parameter yields InvalidParam, a second init yields
AlreadyInitialized, and a valid first call records the configuration,
allocates the fresh handle table and starts every timer in the Idle phase. -/
def rbc_mesh_init (st : MeshState) (accessAddr channel handleCount advIntMs : Nat) :
    MeshState × Except MeshError Unit :=
  if st.sdEnabled = false then (st, .error .softdeviceNotEnabled)
  else if initParamsValid channel handleCount advIntMs = false then
    (st, .error .invalidParam)
  else if st.initDone then (st, .error .alreadyInitialized)
  else
    ({ st with initDone := true, accessAddr := accessAddr, channel := channel,
               handleCount := handleCount, advIntMs := advIntMs,
               slots := fun _ => emptySlot,
               timers := fun _ => trickleFromAdv advIntMs,
               phases := fun _ => .idle },
     .ok ())

/-- Handle range check: handles run from 1 to the configured handle count. -/
def handleInRange (st : MeshState) (handle : Nat) : Bool :=
  decide (1 ≤ handle) && decide (handle ≤ st.handleCount)

/-- Modelled from the spec: rbc_mesh_value_set (declared in rbc_mesh.h, body
not in the provided sources).  Fails NotInitialized before init,
InvalidAddress out of range, InvalidLength for an over-long payload;
otherwise performs set_local on the slot and restarts the Trickle timer of
the handle at interval_min. -/
def rbc_mesh_value_set (st : MeshState) (handle : Nat) (data : List Nat) :
    MeshState × Except MeshError Unit :=
  if st.initDone = false then (st, .error .notInitialized)
  else if handleInRange st handle = false then (st, .error .invalidAddress)
  else if RBC_VALUE_MAX_LEN < data.length then (st, .error .invalidLength)
  else
    ({ st with
        slots := fun h => if h = handle then setLocal (st.slots handle) st.nodeAddr data
                          else st.slots h,
        timers := fun h => if h = handle then
                             { st.timers handle with cur := (st.timers handle).imin }
                           else st.timers h },
     .ok ())

/-- Modelled from the spec: rbc_mesh_value_get (declared in rbc_mesh.h, body
not in the provided sources).  Read-only: fails NotInitialized before init,
InvalidAddress out of range, Unallocated when the handle has never been set
locally or received remotely, and otherwise returns the payload and its
length. -/
def rbc_mesh_value_get (st : MeshState) (handle : Nat) :
    Except MeshError (List Nat × Nat) :=
  if st.initDone = false then .error .notInitialized
  else if handleInRange st handle = false then .error .invalidAddress
  else if (st.slots handle).allocated = false then .error .unallocated
  else .ok ((st.slots handle).payload, (st.slots handle).payload.length)

/-- Modelled from the spec: rbc_mesh_value_req (declared in rbc_mesh.h, body
not in the provided sources).  Fails NotInitialized before init and
InvalidAddress out of range; otherwise forces the Trickle interval of the
handle back to interval_min without touching the stored value. -/
def rbc_mesh_value_req (st : MeshState) (handle : Nat) :
    MeshState × Except MeshError Unit :=
  if st.initDone = false then (st, .error .notInitialized)
  else if handleInRange st handle = false then (st, .error .invalidAddress)
  else
    ({ st with
        timers := fun h => if h = handle then
                             { st.timers handle with cur := (st.timers handle).imin }
                           else st.timers h },
     .ok ())

/-- Modelled from the spec: rbc_mesh_access_address_get (rbc_mesh.h). -/
def rbc_mesh_access_address_get (st : MeshState) : Except MeshError Nat :=
  if st.initDone = false then .error .notInitialized else .ok st.accessAddr

/-- Modelled from the spec: rbc_mesh_channel_get (rbc_mesh.h). -/
def rbc_mesh_channel_get (st : MeshState) : Except MeshError Nat :=
  if st.initDone = false then .error .notInitialized else .ok st.channel

/-- Modelled from the spec: rbc_mesh_handle_count_get (rbc_mesh.h). -/
def rbc_mesh_handle_count_get (st : MeshState) : Except MeshError Nat :=
  if st.initDone = false then .error .notInitialized else .ok st.handleCount

/-- Modelled from the spec: rbc_mesh_adv_int_get (rbc_mesh.h). -/
def rbc_mesh_adv_int_get (st : MeshState) : Except MeshError Nat :=
  if st.initDone = false then .error .notInitialized else .ok st.advIntMs

/-- C5: with the Softdevice enabled, init fails with InvalidParam whenever
the channel is outside 1..39, the handle count exceeds 155 or the advertise
interval is outside [5, 60000]; fails with AlreadyInitialized on a second
init; and otherwise succeeds, recording the configuration, allocating a
fresh handle table and starting every per-handle timer in the Idle phase. -/
theorem init_contract (st : MeshState) (a c hc ai : Nat)
    (hsd : st.sdEnabled = true) :
    ((¬(1 ≤ c ∧ c ≤ 39) ∨ 155 < hc ∨ ¬(5 ≤ ai ∧ ai ≤ 60000)) →
       rbc_mesh_init st a c hc ai = (st, .error .invalidParam)) ∧
    ((1 ≤ c ∧ c ≤ 39) → hc ≤ 155 → (5 ≤ ai ∧ ai ≤ 60000) → st.initDone = true →
       rbc_mesh_init st a c hc ai = (st, .error .alreadyInitialized)) ∧
    ((1 ≤ c ∧ c ≤ 39) → hc ≤ 155 → (5 ≤ ai ∧ ai ≤ 60000) → st.initDone = false →
       (rbc_mesh_init st a c hc ai).2 = .ok () ∧
       (rbc_mesh_init st a c hc ai).1.initDone = true ∧
       (rbc_mesh_init st a c hc ai).1.handleCount = hc ∧
       (rbc_mesh_init st a c hc ai).1.advIntMs = ai ∧
       (∀ h, (rbc_mesh_init st a c hc ai).1.slots h = emptySlot) ∧
       (∀ h, (rbc_mesh_init st a c hc ai).1.phases h = .idle)) := by
  have hval : ∀ (h1 : 1 ≤ c ∧ c ≤ 39) (h2 : hc ≤ 155) (h3 : 5 ≤ ai ∧ ai ≤ 60000),
      initParamsValid c hc ai = true := by
    intro h1 h2 h3
    simp [initParamsValid]
    omega
  refine ⟨fun hbad => ?_, fun hc1 hc2 hc3 hdone => ?_, fun hc1 hc2 hc3 hdone => ?_⟩
  · have hinv : initParamsValid c hc ai = false := by
      simp [initParamsValid]
      omega
    simp [rbc_mesh_init, hsd, hinv]
  · simp [rbc_mesh_init, hsd, hval hc1 hc2 hc3, hdone]
  · simp [rbc_mesh_init, hsd, hval hc1 hc2 hc3, hdone, emptySlot]

/-- Witness for init_contract: a first init with channel 38, 10 handles and
a 100 ms interval succeeds with a fresh Idle table, while channel 40 is
rejected as InvalidParam. -/
theorem init_contract_witness :
    (rbc_mesh_init (preInitState true 7) 1234 38 10 100).2 = .ok () ∧
    (rbc_mesh_init (preInitState true 7) 1234 38 10 100).1.initDone = true ∧
    (rbc_mesh_init (preInitState true 7) 1234 38 10 100).1.handleCount = 10 ∧
    (rbc_mesh_init (preInitState true 7) 1234 38 10 100).1.slots 3 = emptySlot ∧
    (rbc_mesh_init (preInitState true 7) 1234 38 10 100).1.phases 3 = .idle ∧
    rbc_mesh_init (preInitState true 7) 1234 40 10 100 =
      (preInitState true 7, .error .invalidParam) := by
  have hok := (init_contract (preInitState true 7) 1234 38 10 100 rfl).2.2
    (by decide) (by decide) (by decide) rfl
  have hbad := (init_contract (preInitState true 7) 1234 40 10 100 rfl).1
    (by decide)
  exact ⟨hok.1, hok.2.1, hok.2.2.1, hok.2.2.2.2.1 3, hok.2.2.2.2.2 3, hbad⟩

/-- C10: a call to init made before the Softdevice has been enabled returns
NRF_ERROR_SOFTDEVICE_NOT_ENABLED for every argument tuple, and the framework
state, in particular its initialization flag, is unchanged. -/
theorem init_requires_softdevice (st : MeshState) (a c hc ai : Nat)
    (hsd : st.sdEnabled = false) :
    rbc_mesh_init st a c hc ai = (st, .error .softdeviceNotEnabled) := by
  simp [rbc_mesh_init, hsd]

/-- Witness for init_requires_softdevice: even a parameter-wise valid first
init fails with the softdevice error when the Softdevice is disabled. -/
theorem init_requires_softdevice_witness :
    rbc_mesh_init (preInitState false 7) 1234 38 10 100 =
      (preInitState false 7, .error .softdeviceNotEnabled) :=
  init_requires_softdevice (preInitState false 7) 1234 38 10 100 rfl

/-- C9: before init has succeeded, every public query and update operation
fails with NotInitialized and leaves the state unchanged, whatever its
arguments. -/
theorem ops_require_init (st : MeshState) (handle : Nat) (data : List Nat)
    (h : st.initDone = false) :
    rbc_mesh_value_set st handle data = (st, .error .notInitialized) ∧
    rbc_mesh_value_get st handle = .error .notInitialized ∧
    rbc_mesh_value_req st handle = (st, .error .notInitialized) ∧
    rbc_mesh_access_address_get st = .error .notInitialized ∧
    rbc_mesh_channel_get st = .error .notInitialized ∧
    rbc_mesh_handle_count_get st = .error .notInitialized ∧
    rbc_mesh_adv_int_get st = .error .notInitialized := by
  simp [rbc_mesh_value_set, rbc_mesh_value_get, rbc_mesh_value_req,
        rbc_mesh_access_address_get, rbc_mesh_channel_get,
        rbc_mesh_handle_count_get, rbc_mesh_adv_int_get, h]

/-- Witness for ops_require_init: on the pre-init state every public
operation reports NotInitialized. -/
theorem ops_require_init_witness :
    rbc_mesh_value_set (preInitState true 7) 3 [1] =
      (preInitState true 7, .error .notInitialized) ∧
    rbc_mesh_value_get (preInitState true 7) 3 = .error .notInitialized ∧
    rbc_mesh_value_req (preInitState true 7) 3 =
      (preInitState true 7, .error .notInitialized) ∧
    rbc_mesh_access_address_get (preInitState true 7) = .error .notInitialized ∧
    rbc_mesh_channel_get (preInitState true 7) = .error .notInitialized ∧
    rbc_mesh_handle_count_get (preInitState true 7) = .error .notInitialized ∧
    rbc_mesh_adv_int_get (preInitState true 7) = .error .notInitialized :=
  ops_require_init (preInitState true 7) 3 [1] rfl

/-- C6: after successful initialization, value_get returns the payload and
its length on an allocated in-range handle, InvalidAddress on an
out-of-range handle, and Unallocated on an in-range handle never set
locally or received remotely. -/
theorem value_get_contract (st : MeshState) (handle : Nat)
    (hinit : st.initDone = true) :
    ((1 ≤ handle ∧ handle ≤ st.handleCount) → (st.slots handle).allocated = true →
       rbc_mesh_value_get st handle =
         .ok ((st.slots handle).payload, (st.slots handle).payload.length)) ∧
    (¬(1 ≤ handle ∧ handle ≤ st.handleCount) →
       rbc_mesh_value_get st handle = .error .invalidAddress) ∧
    ((1 ≤ handle ∧ handle ≤ st.handleCount) → (st.slots handle).allocated = false →
       rbc_mesh_value_get st handle = .error .unallocated) := by
  refine ⟨fun hr ha => ?_, fun hr => ?_, fun hr ha => ?_⟩ <;>
    simp_all [rbc_mesh_value_get, handleInRange]

/-- State used by the witnesses below: a node initialized with 10 handles
that has set payload [1, 2] on handle 3. -/
def witnessState : MeshState :=
  (rbc_mesh_value_set
    (rbc_mesh_init (preInitState true 7) 1234 38 10 100).1 3 [1, 2]).1

/-- Witness for value_get_contract: on the witness state, handle 3 reads
back payload [1, 2] of length 2, handle 11 is out of range and handle 4 is
unallocated. -/
theorem value_get_contract_witness :
    rbc_mesh_value_get witnessState 3 = .ok ([1, 2], 2) ∧
    rbc_mesh_value_get witnessState 11 = .error .invalidAddress ∧
    rbc_mesh_value_get witnessState 4 = .error .unallocated := by
  refine ⟨?_, ?_, ?_⟩
  · have := (value_get_contract witnessState 3 rfl).1 (by decide) rfl
    simpa using this
  · exact (value_get_contract witnessState 11 rfl).2.1 (by decide)
  · exact (value_get_contract witnessState 4 rfl).2.2 (by decide) rfl

/-- C7: for an in-range handle and a payload longer than RBC_VALUE_MAX_LEN,
value_set fails with InvalidLength and returns the state, hence the slot,
completely unchanged. -/
theorem value_set_overlong (st : MeshState) (handle : Nat) (data : List Nat)
    (hinit : st.initDone = true)
    (hrange : 1 ≤ handle ∧ handle ≤ st.handleCount)
    (hlen : RBC_VALUE_MAX_LEN < data.length) :
    rbc_mesh_value_set st handle data = (st, .error .invalidLength) := by
  simp_all [rbc_mesh_value_set, handleInRange]

/-- Witness for value_set_overlong: a 29-byte payload on handle 3 of the
witness state is rejected as InvalidLength with the state untouched. -/
theorem value_set_overlong_witness :
    rbc_mesh_value_set witnessState 3 (List.replicate 29 0) =
      (witnessState, .error .invalidLength) :=
  value_set_overlong witnessState 3 (List.replicate 29 0) rfl (by decide)
    (by decide)

/-- Modelled from the spec: the interval-end transition of the Trickle
scheduler (spec section 4.3): if an inconsistency (Accept or Conflict from
the Resolver) occurred during the interval the current interval is reset to
interval_min, otherwise it doubles, capped at interval_max. -/
def trickleEnd (t : Trickle) (inconsistent : Bool) : Trickle :=
  if inconsistent then { t with cur := t.imin }
  else { t with cur := min (2 * t.cur) t.imax }

/-- k consecutive interval ends during which no inconsistency occurred. -/
def consistentRun (t : Trickle) : Nat → Trickle
  | 0 => t
  | k + 1 => trickleEnd (consistentRun t k) false

/-- The interval bounds are never changed by an interval end. -/
theorem consistentRun_bounds (t : Trickle) (k : Nat) :
    (consistentRun t k).imin = t.imin ∧ (consistentRun t k).imax = t.imax := by
  induction k with
  | zero => exact ⟨rfl, rfl⟩
  | succ n ih => simpa [consistentRun, trickleEnd] using ih

/-- Closed form of a consistent run: the current interval is the initial one
doubled k times, capped at interval_max. -/
theorem consistentRun_cur (t : Trickle) (k : Nat) (h : t.cur ≤ t.imax) :
    (consistentRun t k).cur = min (2 ^ k * t.cur) t.imax := by
  induction k with
  | zero =>
      simpa [consistentRun] using (Nat.min_eq_left h).symm
  | succ n ih =>
      have hmax := (consistentRun_bounds t n).2
      have hstep : (consistentRun t (n + 1)).cur =
          min (2 * (consistentRun t n).cur) t.imax := by
        simp [consistentRun, trickleEnd, hmax]
      rw [hstep, ih]
      have hpow : 2 ^ (n + 1) * t.cur = 2 * (2 ^ n * t.cur) := by ring
      rw [hpow]
      generalize 2 ^ n * t.cur = x
      omega

/-- C8: under the invariant interval_min ≤ current ≤ interval_max (with a
positive interval_min), every consistent run of at least interval_max
interval ends saturates the current interval at interval_max, where it stays
as long as intervals remain consistent; each interval end either doubles the
interval capped at interval_max or resets it to interval_min, and both kinds
of interval end preserve the bounds invariant. -/
theorem trickle_saturation (t : Trickle)
    (h1 : 1 ≤ t.imin) (h2 : t.imin ≤ t.cur) (h3 : t.cur ≤ t.imax) :
    (∀ k, t.imax ≤ k → (consistentRun t k).cur = t.imax) ∧
    (trickleEnd t true).cur = t.imin ∧
    (trickleEnd t false).cur = min (2 * t.cur) t.imax ∧
    (∀ b, t.imin ≤ (trickleEnd t b).cur ∧ (trickleEnd t b).cur ≤ t.imax) := by
  refine ⟨fun k hk => ?_, rfl, rfl, fun b => ?_⟩
  · rw [consistentRun_cur t k h3]
    have hpow : k < 2 ^ k := Nat.lt_two_pow k
    have hcur : 2 ^ k ≤ 2 ^ k * t.cur :=
      Nat.le_mul_of_pos_right _ (lt_of_lt_of_le Nat.zero_lt_one (h1.trans h2))
    exact Nat.min_eq_right (by omega)
  · cases b <;> simp [trickleEnd] <;> omega

/-- Witness for trickle_saturation: a timer with bounds [5, 40] starting at
5 reaches 40 after 40 consistent interval ends, and one interval end of each
kind behaves as claimed. -/
theorem trickle_saturation_witness :
    (consistentRun (Trickle.mk 5 40 5) 40).cur = 40 ∧
    (trickleEnd (Trickle.mk 5 40 5) true).cur = 5 ∧
    (trickleEnd (Trickle.mk 5 40 5) false).cur = min (2 * 5) 40 ∧
    5 ≤ (trickleEnd (Trickle.mk 5 40 5) false).cur ∧
    (trickleEnd (Trickle.mk 5 40 5) false).cur ≤ 40 := by
  have h := trickle_saturation (Trickle.mk 5 40 5) (by decide) (by decide) (by decide)
  exact ⟨h.1 40 (by decide), h.2.1, h.2.2.1, (h.2.2.2 false).1, (h.2.2.2 false).2⟩

end RbcMesh
